import Mathlib

/-!
Verification of the stratisd management-plane controller.

The development shallowly embeds the two source files of the repository:

* `src/engine/macros.rs` — the pool-registry mutation macros
  (destroy_pool!, get_pool!, rename_pool!), embedded as state-passing
  functions on an association-list registry mirroring the BTreeMap.
* `src/dbus_api.rs` — the dispatch layer (DbusContext, get_next_id,
  internal_to_dbus_err, create_pool, create_dbus_pool, the lookup-by-name
  handlers and the per-pool sub-namespace handlers).

Types that live in modules not present in the source tree (types.rs,
dbus_consts.rs, the engine implementation) are modelled from the spec and
carry a doc comment saying so.
-/

namespace Stratisd

/-- A pool entity: name-keyed value owning filesystems, block devices and
cache devices.  The macros only test emptiness of the collections, so each
is a list of strings. -/
structure Pool where
  filesystems : List String
  block_devs : List String
  cache_devs : List String
deriving Repr, DecidableEq

/-- The pool registry: the BTreeMap from pool name to pool entity, embedded
as an association list (key uniqueness is an invariant carried as a
hypothesis where a theorem needs it). -/
abbrev Registry := List (String × Pool)

/-- Map lookup: the first binding of the key, mirroring BTreeMap get. -/
def lookupPool : Registry → String → Option Pool
  | [], _ => none
  | (k, v) :: rest, n => if k = n then some v else lookupPool rest n

/-- BTreeMap contains_key. -/
def containsKey (r : Registry) (n : String) : Bool :=
  (lookupPool r n).isSome

/-- BTreeMap remove: drops every binding of the key (on a registry with
unique keys this is the single entry). -/
def eraseKey : Registry → String → Registry
  | [], _ => []
  | (k, v) :: rest, n => if k = n then eraseKey rest n else (k, v) :: eraseKey rest n

/-- BTreeMap insert: binds the key to the value, replacing any old binding. -/
def insertPool (r : Registry) (n : String) (p : Pool) : Registry :=
  (n, p) :: eraseKey r n

/-- Modelled from the spec: the internal error-category enumeration of
types.rs (not in src/); the constructors are exactly the ones the source
files apply: Busy, NotFound, AlreadyExists, each carrying a message. -/
inductive ErrorEnum where
  | Busy : String → ErrorEnum
  | NotFound : String → ErrorEnum
  | AlreadyExists : String → ErrorEnum
deriving Repr, DecidableEq

/-- Modelled from the spec: the relevant I/O error kinds; the translator in
dbus_api.rs distinguishes NotFound and AlreadyExists and sends every other
kind to the wildcard arm, so a representative set of other kinds is kept. -/
inductive ErrorKind where
  | NotFound : ErrorKind
  | AlreadyExists : ErrorKind
  | PermissionDenied : ErrorKind
  | Interrupted : ErrorKind
  | OtherKind : ErrorKind
deriving Repr, DecidableEq

/-- Modelled from the spec: the internal error taxonomy of types.rs (not in
src/).  The source applies the constructors Stratis (wrapping an ErrorEnum,
this is also how the engine macros build their errors) and Io (wrapping an
I/O error kind); Dbus stands for the remaining variants matched by the
wildcard arm of the translator. -/
inductive StratisError where
  | Stratis : ErrorEnum → StratisError
  | Io : ErrorKind → StratisError
  | Dbus : String → StratisError
deriving Repr, DecidableEq

/-- Modelled from the spec: the closed result-code enumeration of
dbus_consts.rs (not in src/), per the table in spec section 4.5. -/
inductive StratisErrorEnum where
  | STRATIS_OK : StratisErrorEnum
  | STRATIS_ERROR : StratisErrorEnum
  | STRATIS_ALREADY_EXISTS : StratisErrorEnum
  | STRATIS_BUSY : StratisErrorEnum
  | STRATIS_NOTFOUND : StratisErrorEnum
deriving Repr, DecidableEq

/-- Modelled from the spec: each category carries a fixed numeric value
(dbus_consts.rs is not in src/).  The ok value is 0, as witnessed by the
stub handlers in dbus_api.rs pairing the literal 0 with the string Ok; the
other values are distinct and nonzero. -/
def StratisErrorEnum.get_error_int : StratisErrorEnum → Nat
  | .STRATIS_OK => 0
  | .STRATIS_ERROR => 1
  | .STRATIS_ALREADY_EXISTS => 2
  | .STRATIS_BUSY => 3
  | .STRATIS_NOTFOUND => 4

/-- Modelled from the spec: each category carries a canonical message
(dbus_consts.rs is not in src/); the ok message is Ok as in the stub
handlers. -/
def StratisErrorEnum.get_error_string : StratisErrorEnum → String
  | .STRATIS_OK => "Ok"
  | .STRATIS_ERROR => "Error"
  | .STRATIS_ALREADY_EXISTS => "Already exists"
  | .STRATIS_BUSY => "Busy"
  | .STRATIS_NOTFOUND => "Not found"

/-- destroy_pool! from engine/macros.rs.  The mutable borrow of the pools
map becomes state passing: the result pairs the returned value with the
registry after the call (the error early-returns leave it untouched; the
entry is removed only on the final success path). -/
def destroy_pool (pools : Registry) (name : String) :
    Except StratisError Bool × Registry :=
  match lookupPool pools name with
  | none => (.ok false, pools)
  | some entry =>
    if !entry.filesystems.isEmpty then
      (.error (.Stratis (.Busy "filesystems remaining on pool")), pools)
    else if !entry.block_devs.isEmpty then
      (.error (.Stratis (.Busy "devices remaining in pool")), pools)
    else if !entry.cache_devs.isEmpty then
      (.error (.Stratis (.Busy "cache devices remaining in pool")), pools)
    else
      (.ok true, eraseKey pools name)

/-- get_pool! from engine/macros.rs: lookup that fails with NotFound. -/
def get_pool (pools : Registry) (name : String) : Except StratisError Pool :=
  match lookupPool pools name with
  | some p => .ok p
  | none => .error (.Stratis (.NotFound name))

/-- rename_pool! from engine/macros.rs, state-passing like destroy_pool.
The contains_key test followed by remove().unwrap() of the source becomes a
single match on the lookup, which is some exactly when contains_key holds. -/
def rename_pool (pools : Registry) (old_name new_name : String) :
    Except StratisError Bool × Registry :=
  if old_name = new_name then
    (.ok false, pools)
  else if containsKey pools new_name then
    if containsKey pools old_name then
      (.error (.Stratis (.AlreadyExists new_name)), pools)
    else
      (.ok false, pools)
  else
    match lookupPool pools old_name with
    | some pool => (.ok true, insertPool (eraseKey pools old_name) new_name pool)
    | none => (.ok false, pools)

/-- Recognizes the Busy failure among destroy results. -/
def isBusyResult : Except StratisError Bool → Bool
  | .error (.Stratis (.Busy _)) => true
  | _ => false

/-- The modulus of the u64 identifier counter. -/
def UINT64_MOD : Nat := 2 ^ 64

/-- DbusContext from dbus_api.rs: the shared service context.  next_index
is the u64 identifier counter, kept as a Nat and reduced mod 2^64 where it
is incremented; pools is the context's own BTreeMap from String to String
(the source file never writes it); the engine Rc is modelled as separate
state threaded alongside the context. -/
structure DbusContext where
  next_index : Nat
  pools : List (String × String)
deriving Repr, DecidableEq

/-- DbusContext::new (the engine reference is threaded separately). -/
def DbusContext.new : DbusContext :=
  { next_index := 0, pools := [] }

/-- DbusContext::get_next_id: increment the u64 counter and return it. -/
def DbusContext.get_next_id (c : DbusContext) : Nat × DbusContext :=
  ((c.next_index + 1) % UINT64_MOD,
    { c with next_index := (c.next_index + 1) % UINT64_MOD })

/-- The context after n successive get_next_id calls. -/
def context_after (c : DbusContext) : Nat → DbusContext
  | 0 => c
  | n + 1 => (DbusContext.get_next_id (context_after c n)).2

/-- The value returned by call number k (0-indexed) of get_next_id. -/
def returned_id (c : DbusContext) (k : Nat) : Nat :=
  (DbusContext.get_next_id (context_after c k)).1

/-- Modelled from the spec: the storage-engine collaborator (its
implementation is not in src/; of the engine module only macros.rs is).
It owns the pool registry of spec section 4.2; provision is the oracle for
the outcome of the physical provisioning done by a create_pool call (spec
section 6), with none meaning success. -/
structure Engine where
  pools : Registry
  provision : String → List String → Nat → Option StratisError

/-- Modelled from the spec: Engine::create_pool (implementation not in
src/).  Per spec sections 3 and 4.4, when provisioning succeeds the new
pool entity is inserted into the engine's registry under the given name
(src/ does not fix the entity's initial collections beyond the devices
handed over); on failure the error is returned and the registry is left
unchanged. -/
def Engine.create_pool (e : Engine) (name : String) (blockdevs : List String)
    (raid_level : Nat) : Except StratisError Unit × Engine :=
  match e.provision name blockdevs raid_level with
  | none => (.ok (), { e with pools := insertPool e.pools name ⟨[], blockdevs, []⟩ })
  | some err => (.error err, e)

/-- Modelled from the spec: the fixed base path segment of object handles
(constant of dbus_consts.rs, not in src/). -/
def STRATIS_BASE_PATH : String := "/org/storage/stratis1"

/-- Modelled from the spec: the sentinel default object path (constant of
dbus_consts.rs, not in src/). -/
def DEFAULT_OBJECT_PATH : String := "/"

/-- default_object_path from dbus_api.rs. -/
def default_object_path : String := DEFAULT_OBJECT_PATH

/-- internal_to_dbus_err from dbus_api.rs: the result code translator. -/
def internal_to_dbus_err : StratisError → StratisErrorEnum
  | .Stratis _ => .STRATIS_ERROR
  | .Io err =>
    match err with
    | .NotFound => .STRATIS_NOTFOUND
    | .AlreadyExists => .STRATIS_ALREADY_EXISTS
    | _ => .STRATIS_ERROR
  | _ => .STRATIS_ERROR

/-- code_to_message_items from dbus_api.rs: the (UInt16, Str) payload pair
of a result code. -/
def code_to_message_items (code : StratisErrorEnum) : Nat × String :=
  (code.get_error_int, code.get_error_string)

/-- The three-field response shape (object_path, return_code,
return_string) appended by the handlers. -/
structure MethodResponse where
  object_path : String
  return_code : Nat
  return_string : String
deriving Repr, DecidableEq

/-- Protocol-level method errors (dbus::tree::MethodErr), raised only for
argument-shape violations before an operation body runs. -/
inductive MethodErr where
  | no_arg : MethodErr
  | invalid_arg : Nat → MethodErr
deriving Repr, DecidableEq

/-- Modelled from the spec: the per-pool method-name constants of
dbus_consts.rs (not in src/), as listed in spec section 6. -/
def pool_method_names : List String :=
  ["CreateVolumes", "DestroyVolumes", "ListVolumes", "ListDevs",
   "ListCacheDevs", "AddCacheDevs", "RemoveCacheDevs", "AddDevs",
   "RemoveDevs"]

/-- create_dbus_pool from dbus_api.rs: allocates the next identifier from
the shared context, builds the handle from STRATIS_BASE_PATH and the
identifier, and registers the nine pool-scoped methods at that handle in a
freshly built, function-local tree.  Returns the handle, that local tree,
and the updated context. -/
def create_dbus_pool (dbus_context : DbusContext) :
    String × List (String × List String) × DbusContext :=
  let r := dbus_context.get_next_id
  let object_name := STRATIS_BASE_PATH ++ "/" ++ toString r.1
  (object_name, [(object_name, pool_method_names)], r.2)

/-- create_pool from dbus_api.rs, after argument parsing: calls the
engine's create_pool; on Ok it mints a handle via create_dbus_pool
(dropping the local tree, as the source does) and answers with the handle
and the ok code; on Err it answers with the default object path and the
translated code.  State passing threads the shared context and the engine. -/
def create_pool (dbus_context : DbusContext) (engine : Engine)
    (name : String) (raid_level : Nat) (devs : List String) :
    MethodResponse × DbusContext × Engine :=
  let call := engine.create_pool name devs raid_level
  match call.1 with
  | .ok _ =>
    let minted := create_dbus_pool dbus_context
    let rc := code_to_message_items .STRATIS_OK
    ({ object_path := minted.1, return_code := rc.1, return_string := rc.2 },
      minted.2.2, call.2)
  | .error x =>
    let rc := code_to_message_items (internal_to_dbus_err x)
    ({ object_path := default_object_path, return_code := rc.1,
       return_string := rc.2 },
      dbus_context, call.2)

/-- get_pool_object_path from dbus_api.rs: a stub that ignores its
argument and the context and always answers the fixed placeholder path
with code 0 and string Ok, raising no protocol-level error. -/
def get_pool_object_path (_dbus_context : DbusContext) (_pool_name : String) :
    Except MethodErr MethodResponse :=
  .ok { object_path := "/dbus/pool/path", return_code := 0, return_string := "Ok" }

/-- get_volume_object_path from dbus_api.rs: stub like
get_pool_object_path. -/
def get_volume_object_path (_dbus_context : DbusContext)
    (_pool_name _volume_name : String) : Except MethodErr MethodResponse :=
  .ok { object_path := "/dbus/volume/path", return_code := 0, return_string := "Ok" }

/-- get_dev_object_path from dbus_api.rs: stub like get_pool_object_path. -/
def get_dev_object_path (_dbus_context : DbusContext) (_dev_name : String) :
    Except MethodErr MethodResponse :=
  .ok { object_path := "/dbus/dev/path", return_code := 0, return_string := "Ok" }

/-- get_cache_object_path from dbus_api.rs: stub like
get_pool_object_path. -/
def get_cache_object_path (_dbus_context : DbusContext)
    (_cache_dev_name : String) : Except MethodErr MethodResponse :=
  .ok { object_path := "/dbus/cache/path", return_code := 0, return_string := "Ok" }

/-- create_volumes from dbus_api.rs: a stub answering the fixed placeholder
response for every context and engine state, invoking nothing. -/
def create_volumes (_dbus_context : DbusContext) (_engine : Engine) :
    Except MethodErr MethodResponse :=
  .ok { object_path := "/dbus/cache/path", return_code := 0, return_string := "Ok" }

/-- destroy_volumes from dbus_api.rs: stub like create_volumes. -/
def destroy_volumes (_dbus_context : DbusContext) (_engine : Engine) :
    Except MethodErr MethodResponse :=
  .ok { object_path := "/dbus/cache/path", return_code := 0, return_string := "Ok" }

/-- list_volumes from dbus_api.rs: stub like create_volumes. -/
def list_volumes (_dbus_context : DbusContext) (_engine : Engine) :
    Except MethodErr MethodResponse :=
  .ok { object_path := "/dbus/cache/path", return_code := 0, return_string := "Ok" }

/-- list_devs from dbus_api.rs: stub like create_volumes. -/
def list_devs (_dbus_context : DbusContext) (_engine : Engine) :
    Except MethodErr MethodResponse :=
  .ok { object_path := "/dbus/cache/path", return_code := 0, return_string := "Ok" }

/-- list_cache_devs from dbus_api.rs: stub like create_volumes. -/
def list_cache_devs (_dbus_context : DbusContext) (_engine : Engine) :
    Except MethodErr MethodResponse :=
  .ok { object_path := "/dbus/cache/path", return_code := 0, return_string := "Ok" }

/-- add_cache_devs from dbus_api.rs: stub like create_volumes. -/
def add_cache_devs (_dbus_context : DbusContext) (_engine : Engine) :
    Except MethodErr MethodResponse :=
  .ok { object_path := "/dbus/cache/path", return_code := 0, return_string := "Ok" }

/-- remove_cache_devs from dbus_api.rs: stub like create_volumes. -/
def remove_cache_devs (_dbus_context : DbusContext) (_engine : Engine) :
    Except MethodErr MethodResponse :=
  .ok { object_path := "/dbus/cache/path", return_code := 0, return_string := "Ok" }

/-- add_devs from dbus_api.rs: stub like create_volumes. -/
def add_devs (_dbus_context : DbusContext) (_engine : Engine) :
    Except MethodErr MethodResponse :=
  .ok { object_path := "/dbus/cache/path", return_code := 0, return_string := "Ok" }

/-- remove_devs from dbus_api.rs: stub like create_volumes. -/
def remove_devs (_dbus_context : DbusContext) (_engine : Engine) :
    Except MethodErr MethodResponse :=
  .ok { object_path := "/dbus/cache/path", return_code := 0, return_string := "Ok" }

/-- A concrete engine whose every provisioning call fails and whose
registry is empty, so every pool-scoped operation of the spec must fail on
it. -/
def engine_all_fail : Engine :=
  { pools := [], provision := fun _ _ _ => some (.Stratis (.Busy "busy")) }

/-- A concrete engine whose every provisioning call succeeds. -/
def engine_all_ok : Engine :=
  { pools := [], provision := fun _ _ _ => none }

/-! Basic registry lemmas. -/

theorem lookupPool_eraseKey_self (r : Registry) (n : String) :
    lookupPool (eraseKey r n) n = none := by
  induction r with
  | nil => rfl
  | cons hd tl ih =>
    obtain ⟨k, v⟩ := hd
    by_cases h : k = n
    · simp [eraseKey, h, ih]
    · simp [eraseKey, lookupPool, h, ih]

theorem lookupPool_eraseKey_ne (r : Registry) (n k : String) (h : n ≠ k) :
    lookupPool (eraseKey r n) k = lookupPool r k := by
  induction r with
  | nil => rfl
  | cons hd tl ih =>
    obtain ⟨a, v⟩ := hd
    by_cases ha : a = n
    · have : a ≠ k := by
        intro hk
        exact h (by rw [← ha, hk])
      simp [eraseKey, ha, lookupPool, this, h, ih]
    · simp [eraseKey, ha, lookupPool, ih]

theorem lookupPool_eq_none_of_not_mem_keys (r : Registry) (n : String)
    (h : n ∉ r.map Prod.fst) : lookupPool r n = none := by
  induction r with
  | nil => rfl
  | cons hd tl ih =>
    obtain ⟨k, v⟩ := hd
    simp only [List.map_cons, List.mem_cons] at h
    push_neg at h
    have hk : k ≠ n := fun hkn => h.1 hkn.symm
    simp [lookupPool, hk, ih h.2]

theorem eraseKey_of_not_containsKey (r : Registry) (n : String)
    (h : containsKey r n = false) : eraseKey r n = r := by
  induction r with
  | nil => rfl
  | cons hd tl ih =>
    obtain ⟨k, v⟩ := hd
    by_cases hk : k = n
    · simp [containsKey, lookupPool, hk] at h
    · have htl : containsKey tl n = false := by
        simpa [containsKey, lookupPool, hk] using h
      simp [eraseKey, hk, ih htl]

theorem length_eraseKey_of_nodup (r : Registry) (n : String)
    (hnd : (r.map Prod.fst).Nodup) (h : containsKey r n = true) :
    (eraseKey r n).length + 1 = r.length := by
  induction r with
  | nil => simp [containsKey, lookupPool] at h
  | cons hd tl ih =>
    obtain ⟨k, v⟩ := hd
    simp only [List.map_cons, List.nodup_cons] at hnd
    by_cases hk : k = n
    · have hmem : n ∉ tl.map Prod.fst := by
        rw [← hk]; exact hnd.1
      have : containsKey tl n = false := by
        simp [containsKey, lookupPool_eq_none_of_not_mem_keys tl n hmem]
      rw [show eraseKey ((k, v) :: tl) n = eraseKey tl n by simp [eraseKey, hk]]
      rw [eraseKey_of_not_containsKey tl n this]
      simp
    · have htl : containsKey tl n = true := by
        simpa [containsKey, lookupPool, hk] using h
      have := ih hnd.2 htl
      simp [eraseKey, hk, List.length_cons]
      omega

theorem isEmpty_false_of_ne_nil {α : Type} {l : List α} (h : l ≠ []) :
    l.isEmpty = false := by
  cases l with
  | nil => simp at h
  | cons a l => rfl

/-- C2: the registry remove operation.  An absent name yields ok false (not
an error, hence never Busy) with the registry unchanged; a present entry
with any non-empty collection yields a Busy failure with the registry
unchanged; a present entry with all three collections empty is removed and
ok true is returned. -/
theorem destroy_pool_spec (r : Registry) (n : String) :
    (lookupPool r n = none → destroy_pool r n = (.ok false, r)) ∧
    (∀ p : Pool, lookupPool r n = some p →
      (p.filesystems ≠ [] ∨ p.block_devs ≠ [] ∨ p.cache_devs ≠ []) →
      isBusyResult (destroy_pool r n).1 = true ∧ (destroy_pool r n).2 = r) ∧
    (∀ p : Pool, lookupPool r n = some p →
      p.filesystems = [] → p.block_devs = [] → p.cache_devs = [] →
      destroy_pool r n = (.ok true, eraseKey r n) ∧
      lookupPool (destroy_pool r n).2 n = none) := by
  refine ⟨fun h => by simp [destroy_pool, h], ?_, ?_⟩
  · intro p hp hne
    by_cases hf : p.filesystems = []
    · by_cases hb : p.block_devs = []
      · by_cases hc : p.cache_devs = []
        · rcases hne with h | h | h <;> exact absurd (by assumption) h
        · have hc' := isEmpty_false_of_ne_nil hc
          constructor <;> simp [destroy_pool, hp, hf, hb, hc', isBusyResult]
      · have hb' := isEmpty_false_of_ne_nil hb
        constructor <;> simp [destroy_pool, hp, hf, hb', isBusyResult]
    · have hf' := isEmpty_false_of_ne_nil hf
      constructor <;> simp [destroy_pool, hp, hf', isBusyResult]
  · intro p hp hf hb hc
    refine ⟨by simp [destroy_pool, hp, hf, hb, hc], ?_⟩
    simp [destroy_pool, hp, hf, hb, hc, lookupPool_eraseKey_self]

/-- Witness for destroy_pool_spec at concrete registries: an absent name, a
busy pool, and an empty (removable) pool. -/
theorem destroy_pool_spec_witness :
    destroy_pool [] "p" = (.ok false, []) ∧
    (isBusyResult (destroy_pool [("p", ⟨["f"], [], []⟩)] "p").1 = true ∧
      (destroy_pool [("p", ⟨["f"], [], []⟩)] "p").2 = [("p", ⟨["f"], [], []⟩)]) ∧
    (destroy_pool [("p", ⟨[], [], []⟩)] "p" =
        (.ok true, eraseKey [("p", ⟨[], [], []⟩)] "p") ∧
      lookupPool (destroy_pool [("p", ⟨[], [], []⟩)] "p").2 "p" = none) :=
  ⟨(destroy_pool_spec [] "p").1 rfl,
   (destroy_pool_spec [("p", ⟨["f"], [], []⟩)] "p").2.1 ⟨["f"], [], []⟩ (by decide)
     (Or.inl (by decide)),
   (destroy_pool_spec [("p", ⟨[], [], []⟩)] "p").2.2 ⟨[], [], []⟩ (by decide)
     rfl rfl rfl⟩

/-- C9: the Busy message names the first non-empty collection in the fixed
check order filesystems, block devices, cache devices. -/
theorem destroy_pool_busy_message (r : Registry) (n : String) (p : Pool)
    (hp : lookupPool r n = some p) :
    (p.filesystems ≠ [] →
      destroy_pool r n =
        (.error (.Stratis (.Busy "filesystems remaining on pool")), r)) ∧
    (p.filesystems = [] → p.block_devs ≠ [] →
      destroy_pool r n =
        (.error (.Stratis (.Busy "devices remaining in pool")), r)) ∧
    (p.filesystems = [] → p.block_devs = [] → p.cache_devs ≠ [] →
      destroy_pool r n =
        (.error (.Stratis (.Busy "cache devices remaining in pool")), r)) := by
  refine ⟨fun hf => ?_, fun hf hb => ?_, fun hf hb hc => ?_⟩
  · have hf' := isEmpty_false_of_ne_nil hf
    simp [destroy_pool, hp, hf']
  · have hb' := isEmpty_false_of_ne_nil hb
    simp [destroy_pool, hp, hf, hb']
  · have hc' := isEmpty_false_of_ne_nil hc
    simp [destroy_pool, hp, hf, hb, hc']

/-- Witness for destroy_pool_busy_message: a pool with both filesystems and
block devices reports the filesystems message; one with block devices and
cache devices reports the devices message; one with only cache devices
reports the cache-devices message. -/
theorem destroy_pool_busy_message_witness :
    destroy_pool [("p", ⟨["f"], ["d"], []⟩)] "p" =
      (.error (.Stratis (.Busy "filesystems remaining on pool")),
        [("p", ⟨["f"], ["d"], []⟩)]) ∧
    destroy_pool [("p", ⟨[], ["d"], ["c"]⟩)] "p" =
      (.error (.Stratis (.Busy "devices remaining in pool")),
        [("p", ⟨[], ["d"], ["c"]⟩)]) ∧
    destroy_pool [("p", ⟨[], [], ["c"]⟩)] "p" =
      (.error (.Stratis (.Busy "cache devices remaining in pool")),
        [("p", ⟨[], [], ["c"]⟩)]) :=
  ⟨(destroy_pool_busy_message [("p", ⟨["f"], ["d"], []⟩)] "p" ⟨["f"], ["d"], []⟩
      (by decide)).1 (by decide),
   (destroy_pool_busy_message [("p", ⟨[], ["d"], ["c"]⟩)] "p" ⟨[], ["d"], ["c"]⟩
      (by decide)).2.1 rfl (by decide),
   (destroy_pool_busy_message [("p", ⟨[], [], ["c"]⟩)] "p" ⟨[], [], ["c"]⟩
      (by decide)).2.2 rfl rfl (by decide)⟩

/-- C3: the exact four-way branch of rename_pool (the new-present case
splits on whether old is present, giving five observable outcomes). -/
theorem rename_pool_spec (r : Registry) (old_name new_name : String) :
    (old_name = new_name →
      rename_pool r old_name new_name = (.ok false, r)) ∧
    (old_name ≠ new_name → containsKey r new_name = true →
      containsKey r old_name = true →
      rename_pool r old_name new_name =
        (.error (.Stratis (.AlreadyExists new_name)), r)) ∧
    (old_name ≠ new_name → containsKey r new_name = true →
      containsKey r old_name = false →
      rename_pool r old_name new_name = (.ok false, r)) ∧
    (old_name ≠ new_name → containsKey r new_name = false →
      containsKey r old_name = true →
      (rename_pool r old_name new_name).1 = .ok true ∧
      lookupPool (rename_pool r old_name new_name).2 new_name
        = lookupPool r old_name ∧
      lookupPool (rename_pool r old_name new_name).2 old_name = none) ∧
    (old_name ≠ new_name → containsKey r new_name = false →
      containsKey r old_name = false →
      rename_pool r old_name new_name = (.ok false, r)) := by
  refine ⟨fun he => by simp [rename_pool, he], fun he hn ho => ?_,
    fun he hn ho => ?_, fun he hn ho => ?_, fun he hn ho => ?_⟩
  · simp [rename_pool, he, hn, ho]
  · simp [rename_pool, he, hn, ho]
  · obtain ⟨p, hp⟩ := Option.isSome_iff_exists.mp ho
    have hr : rename_pool r old_name new_name =
        (.ok true, insertPool (eraseKey r old_name) new_name p) := by
      simp [rename_pool, he, hn, hp]
    refine ⟨by rw [hr], ?_, ?_⟩
    · rw [hr, hp]
      simp [insertPool, lookupPool]
    · rw [hr]
      have hno : new_name ≠ old_name := fun hx => he hx.symm
      simp only [insertPool, lookupPool, if_neg hno]
      rw [lookupPool_eraseKey_ne _ _ _ hno, lookupPool_eraseKey_self]
  · have ho' : lookupPool r old_name = none := by
      simpa [containsKey] using ho
    simp [rename_pool, he, hn, ho']

/-- Witness for rename_pool_spec on a concrete two-entry registry,
exercising all five outcomes. -/
theorem rename_pool_spec_witness :
    rename_pool [("a", ⟨[], [], []⟩), ("b", ⟨["f"], [], []⟩)] "a" "a"
      = (.ok false, [("a", ⟨[], [], []⟩), ("b", ⟨["f"], [], []⟩)]) ∧
    rename_pool [("a", ⟨[], [], []⟩), ("b", ⟨["f"], [], []⟩)] "a" "b"
      = (.error (.Stratis (.AlreadyExists "b")),
          [("a", ⟨[], [], []⟩), ("b", ⟨["f"], [], []⟩)]) ∧
    rename_pool [("a", ⟨[], [], []⟩), ("b", ⟨["f"], [], []⟩)] "c" "b"
      = (.ok false, [("a", ⟨[], [], []⟩), ("b", ⟨["f"], [], []⟩)]) ∧
    ((rename_pool [("a", ⟨[], [], []⟩), ("b", ⟨["f"], [], []⟩)] "a" "d").1
        = .ok true ∧
      lookupPool (rename_pool [("a", ⟨[], [], []⟩), ("b", ⟨["f"], [], []⟩)]
          "a" "d").2 "d"
        = lookupPool [("a", ⟨[], [], []⟩), ("b", ⟨["f"], [], []⟩)] "a" ∧
      lookupPool (rename_pool [("a", ⟨[], [], []⟩), ("b", ⟨["f"], [], []⟩)]
          "a" "d").2 "a" = none) ∧
    rename_pool [("a", ⟨[], [], []⟩), ("b", ⟨["f"], [], []⟩)] "c" "d"
      = (.ok false, [("a", ⟨[], [], []⟩), ("b", ⟨["f"], [], []⟩)]) :=
  ⟨(rename_pool_spec [("a", ⟨[], [], []⟩), ("b", ⟨["f"], [], []⟩)] "a" "a").1
     rfl,
   (rename_pool_spec [("a", ⟨[], [], []⟩), ("b", ⟨["f"], [], []⟩)] "a" "b").2.1
     (by decide) (by decide) (by decide),
   (rename_pool_spec [("a", ⟨[], [], []⟩), ("b", ⟨["f"], [], []⟩)] "c" "b").2.2.1
     (by decide) (by decide) (by decide),
   (rename_pool_spec [("a", ⟨[], [], []⟩), ("b", ⟨["f"], [], []⟩)] "a" "d").2.2.2.1
     (by decide) (by decide) (by decide),
   (rename_pool_spec [("a", ⟨[], [], []⟩), ("b", ⟨["f"], [], []⟩)] "c" "d").2.2.2.2
     (by decide) (by decide) (by decide)⟩

/-- C10: a rename that returns true changes no binding other than the old
and new names and preserves the number of registry entries (key uniqueness
of the BTreeMap is the carried invariant). -/
theorem rename_pool_frame (r : Registry) (old_name new_name : String)
    (hnd : (r.map Prod.fst).Nodup)
    (h : (rename_pool r old_name new_name).1 = .ok true) :
    (∀ k, k ≠ old_name → k ≠ new_name →
      lookupPool (rename_pool r old_name new_name).2 k = lookupPool r k) ∧
    (rename_pool r old_name new_name).2.length = r.length := by
  by_cases he : old_name = new_name
  · simp [rename_pool, he] at h
  · by_cases hn : containsKey r new_name = true
    · by_cases ho : containsKey r old_name = true
      · simp [rename_pool, he, hn, ho] at h
      · simp [rename_pool, he, hn, ho] at h
    · cases hlo : lookupPool r old_name with
      | none => simp [rename_pool, he, hn, hlo] at h
      | some pool =>
        have hr2 : (rename_pool r old_name new_name).2
            = (new_name, pool) :: eraseKey (eraseKey r old_name) new_name := by
          simp [rename_pool, he, hn, hlo, insertPool]
        constructor
        · intro k hko hkn
          rw [hr2]
          have hnk : new_name ≠ k := fun hx => hkn hx.symm
          have hok : old_name ≠ k := fun hx => hko hx.symm
          simp only [lookupPool, if_neg hnk]
          rw [lookupPool_eraseKey_ne _ _ _ hnk, lookupPool_eraseKey_ne _ _ _ hok]
        · rw [hr2]
          have hn' : containsKey r new_name = false := by
            simpa using hn
          have hnew_er : containsKey (eraseKey r old_name) new_name = false := by
            have heq := lookupPool_eraseKey_ne r old_name new_name he
            simp only [containsKey, heq]
            simpa [containsKey] using hn'
          rw [eraseKey_of_not_containsKey _ _ hnew_er]
          have hco : containsKey r old_name = true := by
            simp [containsKey, hlo]
          have hlen := length_eraseKey_of_nodup r old_name hnd hco
          simp only [List.length_cons]
          omega

/-- Witness for rename_pool_frame: renaming a to b in a registry that also
holds x leaves the binding of x unchanged and keeps two entries. -/
theorem rename_pool_frame_witness :
    lookupPool (rename_pool [("a", ⟨[], [], []⟩), ("x", ⟨["f"], [], []⟩)]
        "a" "b").2 "x"
      = lookupPool [("a", ⟨[], [], []⟩), ("x", ⟨["f"], [], []⟩)] "x" ∧
    (rename_pool [("a", ⟨[], [], []⟩), ("x", ⟨["f"], [], []⟩)] "a" "b").2.length
      = ([("a", ⟨[], [], []⟩), ("x", ⟨["f"], [], []⟩)] : Registry).length :=
  ⟨(rename_pool_frame [("a", ⟨[], [], []⟩), ("x", ⟨["f"], [], []⟩)] "a" "b"
      (by decide) rfl).1 "x" (by decide) (by decide),
   (rename_pool_frame [("a", ⟨[], [], []⟩), ("x", ⟨["f"], [], []⟩)] "a" "b"
      (by decide) rfl).2⟩

/-! Identifier allocator. -/

theorem context_after_next_index (n : Nat) (h : n < UINT64_MOD) :
    (context_after DbusContext.new n).next_index = n := by
  induction n with
  | zero => rfl
  | succ m ih =>
    have hm : m < UINT64_MOD := Nat.lt_of_succ_lt h
    simp only [context_after, DbusContext.get_next_id, ih hm]
    exact Nat.mod_eq_of_lt h

theorem returned_id_eq (k : Nat) (h : k + 1 < UINT64_MOD) :
    returned_id DbusContext.new k = k + 1 := by
  have hk : k < UINT64_MOD := Nat.lt_of_succ_lt h
  simp only [returned_id, DbusContext.get_next_id,
    context_after_next_index k hk]
  exact Nat.mod_eq_of_lt h

/-- C5: get_next_id is a total function (it always answers), and as long as
the u64 counter cannot have wrapped, the ids returned by successive calls
on the context created by DbusContext::new are strictly increasing, the
first returned value being 1. -/
theorem get_next_id_strictly_increasing :
    returned_id DbusContext.new 0 = 1 ∧
    (∀ i j : Nat, i < j → j + 1 < UINT64_MOD →
      returned_id DbusContext.new i < returned_id DbusContext.new j) := by
  refine ⟨rfl, fun i j hij hj => ?_⟩
  have hi : i + 1 < UINT64_MOD := by omega
  rw [returned_id_eq i hi, returned_id_eq j hj]
  omega

/-- Witness for get_next_id_strictly_increasing: the first two calls return
1 and 2, in increasing order. -/
theorem get_next_id_strictly_increasing_witness :
    returned_id DbusContext.new 0 = 1 ∧
    returned_id DbusContext.new 0 < returned_id DbusContext.new 1 :=
  ⟨get_next_id_strictly_increasing.1,
   get_next_id_strictly_increasing.2 0 1 Nat.zero_lt_one
     (by norm_num [UINT64_MOD])⟩

/-! Result code translator. -/

/-- C7: the translator is total over the internal error variants and maps
an I/O not-found to the not-found code, an I/O already-exists to the
already-exists code, and every other variant — the Stratis wrapper
(including the Busy removal refusal), every other I/O kind, and the
remaining variants — to the generic error code. -/
theorem internal_to_dbus_err_total :
    internal_to_dbus_err (.Io .NotFound) = .STRATIS_NOTFOUND ∧
    internal_to_dbus_err (.Io .AlreadyExists) = .STRATIS_ALREADY_EXISTS ∧
    (∀ e : StratisError, e ≠ .Io .NotFound → e ≠ .Io .AlreadyExists →
      internal_to_dbus_err e = .STRATIS_ERROR) := by
  refine ⟨rfl, rfl, fun e h1 h2 => ?_⟩
  cases e with
  | Stratis en => rfl
  | Dbus s => rfl
  | Io k =>
    cases k with
    | NotFound => exact absurd rfl h1
    | AlreadyExists => exact absurd rfl h2
    | PermissionDenied => rfl
    | Interrupted => rfl
    | OtherKind => rfl

/-- Witness for internal_to_dbus_err_total: the Busy removal refusal and an
unlisted I/O kind both translate to the generic error code. -/
theorem internal_to_dbus_err_total_witness :
    internal_to_dbus_err (.Stratis (.Busy "busy")) = .STRATIS_ERROR ∧
    internal_to_dbus_err (.Io .PermissionDenied) = .STRATIS_ERROR :=
  ⟨internal_to_dbus_err_total.2.2 (.Stratis (.Busy "busy")) (by decide)
     (by decide),
   internal_to_dbus_err_total.2.2 (.Io .PermissionDenied) (by decide)
     (by decide)⟩

theorem internal_to_dbus_err_ne_ok (e : StratisError) :
    internal_to_dbus_err e ≠ .STRATIS_OK := by
  cases e with
  | Stratis en => simp [internal_to_dbus_err]
  | Dbus s => simp [internal_to_dbus_err]
  | Io k => cases k <;> simp [internal_to_dbus_err]

theorem get_error_int_eq_zero_iff (c : StratisErrorEnum) :
    c.get_error_int = 0 ↔ c = .STRATIS_OK := by
  cases c <;> simp [StratisErrorEnum.get_error_int]

/-! The create-pool operation. -/

/-- C1: when the engine's create_pool succeeds, the dispatch operation
allocates the next identifier (the incremented counter), builds the handle
from the base path and that identifier, registers the nine pool-scoped
methods at the handle in the tree it builds, leaves the engine registry
containing an entry under the pool name, and answers with that handle and
the ok code. -/
theorem create_pool_engine_ok (ctx : DbusContext) (engine : Engine)
    (name : String) (raid_level : Nat) (devs : List String)
    (hof : ctx.next_index + 1 < UINT64_MOD)
    (hok : engine.provision name devs raid_level = none) :
    (create_pool ctx engine name raid_level devs).1.object_path
      = STRATIS_BASE_PATH ++ "/" ++ toString (ctx.next_index + 1) ∧
    (create_pool ctx engine name raid_level devs).1.return_code
      = StratisErrorEnum.STRATIS_OK.get_error_int ∧
    (create_pool ctx engine name raid_level devs).1.return_string
      = StratisErrorEnum.STRATIS_OK.get_error_string ∧
    (create_pool ctx engine name raid_level devs).2.1.next_index
      = ctx.next_index + 1 ∧
    containsKey (create_pool ctx engine name raid_level devs).2.2.pools name
      = true ∧
    (create_dbus_pool ctx).2.1
      = [((create_pool ctx engine name raid_level devs).1.object_path,
          pool_method_names)] := by
  have hmod : (ctx.next_index + 1) % UINT64_MOD = ctx.next_index + 1 :=
    Nat.mod_eq_of_lt hof
  refine ⟨?_, ?_, ?_, ?_, ?_, ?_⟩ <;>
    simp [create_pool, Engine.create_pool, hok, create_dbus_pool,
      DbusContext.get_next_id, code_to_message_items, hmod, containsKey,
      insertPool, lookupPool]

/-- Witness for create_pool_engine_ok: creating the pool data on the fresh
context with an all-accepting engine mints handle base/1, answers ok, and
registers data in the engine registry. -/
theorem create_pool_engine_ok_witness :
    (create_pool DbusContext.new engine_all_ok "data" 0 ["/dev/sda"]).1.object_path
      = STRATIS_BASE_PATH ++ "/" ++ toString (DbusContext.new.next_index + 1) ∧
    (create_pool DbusContext.new engine_all_ok "data" 0 ["/dev/sda"]).1.return_code
      = StratisErrorEnum.STRATIS_OK.get_error_int ∧
    (create_pool DbusContext.new engine_all_ok "data" 0 ["/dev/sda"]).1.return_string
      = StratisErrorEnum.STRATIS_OK.get_error_string ∧
    (create_pool DbusContext.new engine_all_ok "data" 0 ["/dev/sda"]).2.1.next_index
      = DbusContext.new.next_index + 1 ∧
    containsKey (create_pool DbusContext.new engine_all_ok "data" 0
        ["/dev/sda"]).2.2.pools "data" = true ∧
    (create_dbus_pool DbusContext.new).2.1
      = [((create_pool DbusContext.new engine_all_ok "data" 0
            ["/dev/sda"]).1.object_path, pool_method_names)] :=
  create_pool_engine_ok DbusContext.new engine_all_ok "data" 0 ["/dev/sda"]
    (by norm_num [DbusContext.new, UINT64_MOD]) rfl

/-- C4: when the engine's create_pool fails, the dispatch operation answers
with the sentinel default object path and the translated code — which is
never the ok code — and both the engine pool registry and the shared
context are unchanged. -/
theorem create_pool_engine_err (ctx : DbusContext) (engine : Engine)
    (name : String) (raid_level : Nat) (devs : List String)
    (err : StratisError)
    (herr : engine.provision name devs raid_level = some err) :
    (create_pool ctx engine name raid_level devs).1.object_path
      = default_object_path ∧
    (create_pool ctx engine name raid_level devs).1.return_code
      = (internal_to_dbus_err err).get_error_int ∧
    (create_pool ctx engine name raid_level devs).1.return_code
      ≠ StratisErrorEnum.STRATIS_OK.get_error_int ∧
    (create_pool ctx engine name raid_level devs).2.2.pools = engine.pools ∧
    (create_pool ctx engine name raid_level devs).2.1 = ctx := by
  refine ⟨?_, ?_, ?_, ?_, ?_⟩
  · simp [create_pool, Engine.create_pool, herr, code_to_message_items]
  · simp [create_pool, Engine.create_pool, herr, code_to_message_items]
  · simp only [create_pool, Engine.create_pool, herr, code_to_message_items]
    intro hzero
    exact internal_to_dbus_err_ne_ok err
      ((get_error_int_eq_zero_iff (internal_to_dbus_err err)).mp
        (by simpa [StratisErrorEnum.get_error_int] using hzero))
  · simp [create_pool, Engine.create_pool, herr]
  · simp [create_pool, Engine.create_pool, herr]

/-- Witness for create_pool_engine_err: on the always-failing engine the
response carries the default path and a nonzero code, and nothing changes. -/
theorem create_pool_engine_err_witness :
    (create_pool DbusContext.new engine_all_fail "data" 0 ["/dev/sda"]).1.object_path
      = default_object_path ∧
    (create_pool DbusContext.new engine_all_fail "data" 0 ["/dev/sda"]).1.return_code
      = (internal_to_dbus_err (.Stratis (.Busy "busy"))).get_error_int ∧
    (create_pool DbusContext.new engine_all_fail "data" 0 ["/dev/sda"]).1.return_code
      ≠ StratisErrorEnum.STRATIS_OK.get_error_int ∧
    (create_pool DbusContext.new engine_all_fail "data" 0 ["/dev/sda"]).2.2.pools
      = engine_all_fail.pools ∧
    (create_pool DbusContext.new engine_all_fail "data" 0 ["/dev/sda"]).2.1
      = DbusContext.new :=
  create_pool_engine_err DbusContext.new engine_all_fail "data" 0 ["/dev/sda"]
    (.Stratis (.Busy "busy")) rfl

/-! Lookup-by-name handlers. -/

/-- C6 counterexample: on the fresh context no name resolves to anything,
yet GetPoolObjectPath for the name nosuch answers the fixed placeholder
path with code 0 — which is the ok value, not the not-found value — so the
claim that an unresolved lookup answers a not-found code is false of the
code. -/
theorem get_pool_object_path_counterexample :
    get_pool_object_path DbusContext.new "nosuch"
      = .ok { object_path := "/dbus/pool/path", return_code := 0,
              return_string := "Ok" } ∧
    StratisErrorEnum.STRATIS_OK.get_error_int = 0 ∧
    StratisErrorEnum.STRATIS_NOTFOUND.get_error_int ≠ 0 :=
  ⟨rfl, rfl, by decide⟩

/-- C6 amended: every lookup-by-name handler is a stub: it ignores its
arguments and the registry and always answers its fixed placeholder path
with code 0 (the ok value) and string Ok, never raising a protocol-level
error — so an unresolved name is answered exactly like any other, with the
ok code rather than a not-found code. -/
theorem lookup_handlers_constant (ctx : DbusContext) (name sub : String) :
    get_pool_object_path ctx name
      = .ok { object_path := "/dbus/pool/path", return_code := 0,
              return_string := "Ok" } ∧
    get_volume_object_path ctx name sub
      = .ok { object_path := "/dbus/volume/path", return_code := 0,
              return_string := "Ok" } ∧
    get_dev_object_path ctx name
      = .ok { object_path := "/dbus/dev/path", return_code := 0,
              return_string := "Ok" } ∧
    get_cache_object_path ctx name
      = .ok { object_path := "/dbus/cache/path", return_code := 0,
              return_string := "Ok" } :=
  ⟨rfl, rfl, rfl, rfl⟩

/-! Per-pool sub-namespace handlers. -/

/-- C8 counterexample: CreateVolumes answers the identical fixed ok
response on an engine whose every operation fails (empty registry, failing
oracle) and on one whose every operation succeeds, although the two
engines differ observably — so the response does not reflect the outcome
of any engine call, and no pool-scoped engine operation is delegated to. -/
theorem create_volumes_counterexample :
    create_volumes DbusContext.new engine_all_fail
      = .ok { object_path := "/dbus/cache/path", return_code := 0,
              return_string := "Ok" } ∧
    create_volumes DbusContext.new engine_all_ok
      = .ok { object_path := "/dbus/cache/path", return_code := 0,
              return_string := "Ok" } ∧
    engine_all_fail.provision "data" ["/dev/sda"] 0
      ≠ engine_all_ok.provision "data" ["/dev/sda"] 0 :=
  ⟨rfl, rfl, by decide⟩

/-- C8 amended: each of the nine per-pool sub-namespace handlers is a stub
answering the fixed placeholder response (path /dbus/cache/path, code 0,
string Ok) for every context and engine state; no engine operation is
invoked and the response is independent of any engine outcome. -/
theorem pool_handlers_constant (ctx : DbusContext) (engine : Engine) :
    create_volumes ctx engine
      = .ok { object_path := "/dbus/cache/path", return_code := 0,
              return_string := "Ok" } ∧
    destroy_volumes ctx engine
      = .ok { object_path := "/dbus/cache/path", return_code := 0,
              return_string := "Ok" } ∧
    list_volumes ctx engine
      = .ok { object_path := "/dbus/cache/path", return_code := 0,
              return_string := "Ok" } ∧
    list_devs ctx engine
      = .ok { object_path := "/dbus/cache/path", return_code := 0,
              return_string := "Ok" } ∧
    list_cache_devs ctx engine
      = .ok { object_path := "/dbus/cache/path", return_code := 0,
              return_string := "Ok" } ∧
    add_cache_devs ctx engine
      = .ok { object_path := "/dbus/cache/path", return_code := 0,
              return_string := "Ok" } ∧
    remove_cache_devs ctx engine
      = .ok { object_path := "/dbus/cache/path", return_code := 0,
              return_string := "Ok" } ∧
    add_devs ctx engine
      = .ok { object_path := "/dbus/cache/path", return_code := 0,
              return_string := "Ok" } ∧
    remove_devs ctx engine
      = .ok { object_path := "/dbus/cache/path", return_code := 0,
              return_string := "Ok" } :=
  ⟨rfl, rfl, rfl, rfl, rfl, rfl, rfl, rfl, rfl⟩

end Stratisd
